import Mathlib

/-!
Verification of the Hyperliquid trading-bot repository
(`ultimate_scalping_bot.py`, `order_book_hunter.py`,
`experimental_color_trader.py`).

The signing pipeline (`hash_action`, `sign_action`, payload building) and the
position-transition logic of the bots are embedded shallowly:

* byte strings are `List Nat` with every element `< 256` by construction;
* the msgpack serialization (`msgpack.packb`) is implemented concretely for
  the value shapes the bots serialize (nil, bool, non-negative int, ASCII
  string, array, string-keyed map, in insertion order);
* the external library functions `keccak` (eth_utils) and the EIP-712 signer
  (eth_account) are universally quantified function parameters, since their
  internals are not part of this repository;
* Python floats are modelled as the exact rational numbers they denote, and
  decimal strings by the rational value they parse to;
* each bot method that talks to the exchange becomes a pure function from the
  bot's state plus an oracle describing the HTTP outcome to the new state, a
  returned flag, and the list of externally visible events (order submissions,
  cancels, sleeps).
-/

/-- Big-endian byte encoding on `k` bytes, mirroring Python's
`nonce.to_bytes(k, "big")` (exact for `nonce < 256 ^ k`). -/
def beBytes (k n : Nat) : List Nat :=
  (List.range k).map fun i => n / 256 ^ (k - 1 - i) % 256

/-- Byte values of an ASCII string.  All strings serialized by the bots
("type", "order", "orders", "grouping", "na", "normalTpsl", digit strings,
...) are ASCII, where UTF-8 is the identity on code points. -/
def asciiBytes (s : String) : List Nat :=
  s.data.map Char.toNat

/-- msgpack value: the subset of Python values the bots put in an action
dictionary.  Maps keep Python's dict insertion order. -/
inductive MPVal where
  | nil
  | bool (b : Bool)
  | int (n : Nat)
  | str (s : String)
  | arr (xs : List MPVal)
  | map (kvs : List (String × MPVal))

/-- msgpack header for a str of the given byte length. -/
def strHeader (len : Nat) : List Nat :=
  if len ≤ 31 then [0xa0 + len]
  else if len < 256 then [0xd9, len]
  else if len < 65536 then 0xda :: beBytes 2 len
  else 0xdb :: beBytes 4 len

/-- msgpack encoding of a str value. -/
def packStr (s : String) : List Nat :=
  strHeader (asciiBytes s).length ++ asciiBytes s

/-- msgpack encoding of a non-negative int (smallest-width rule of
`msgpack.packb`). -/
def packNat (n : Nat) : List Nat :=
  if n ≤ 0x7f then [n]
  else if n < 256 then [0xcc, n]
  else if n < 65536 then 0xcd :: beBytes 2 n
  else if n < 4294967296 then 0xce :: beBytes 4 n
  else 0xcf :: beBytes 8 n

/-- msgpack header for an array of the given length. -/
def arrHeader (len : Nat) : List Nat :=
  if len ≤ 15 then [0x90 + len]
  else if len < 65536 then 0xdc :: beBytes 2 len
  else 0xdd :: beBytes 4 len

/-- msgpack header for a map of the given size. -/
def mapHeader (len : Nat) : List Nat :=
  if len ≤ 15 then [0x80 + len]
  else if len < 65536 then 0xde :: beBytes 2 len
  else 0xdf :: beBytes 4 len

mutual

/-- Encoding `msgpack.packb` on the embedded value type. -/
def packb : MPVal → List Nat
  | .nil => [0xc0]
  | .bool false => [0xc2]
  | .bool true => [0xc3]
  | .int n => packNat n
  | .str s => packStr s
  | .arr xs => arrHeader xs.length ++ packList xs
  | .map kvs => mapHeader kvs.length ++ packKVs kvs

/-- Concatenated msgpack encodings of the elements of an array. -/
def packList : List MPVal → List Nat
  | [] => []
  | x :: xs => packb x ++ packList xs

/-- Concatenated msgpack encodings of the key/value pairs of a map. -/
def packKVs : List (String × MPVal) → List Nat
  | [] => []
  | (k, v) :: rest => packStr k ++ packb v ++ packKVs rest

end

/-- Value of a single hex digit, as accepted by Python's `bytes.fromhex`
(the vault addresses fed to it contain no whitespace). -/
def hexVal (c : Char) : Option Nat :=
  if '0' ≤ c ∧ c ≤ '9' then some (c.toNat - 48)
  else if 'a' ≤ c ∧ c ≤ 'f' then some (c.toNat - 87)
  else if 'A' ≤ c ∧ c ≤ 'F' then some (c.toNat - 55)
  else none

/-- Decoder `bytes.fromhex`: consume the characters two at a time; `none` models the
`ValueError` raised on a malformed or odd-length hex string. -/
def fromhexChars : List Char → Option (List Nat)
  | [] => some []
  | [_] => none
  | a :: b :: rest =>
    match hexVal a, hexVal b, fromhexChars rest with
    | some x, some y, some tail => some ((16 * x + y) :: tail)
    | _, _, _ => none

/-- Python `str.removeprefix("0x")`: drop a leading `0x` if present. -/
def strip0x : List Char → List Char
  | '0' :: 'x' :: rest => rest
  | cs => cs

/-- Function `hash_action` (identical in all three bots): msgpack the action, append
the 8-byte big-endian nonce, append the vault marker byte and, when a vault
address is given, its raw bytes, then apply Keccak-256.  `keccak` is the
eth_utils library function, passed in as a parameter; `none` models the
`ValueError` raised by `bytes.fromhex` on a malformed vault address. -/
def hash_action (keccak : List Nat → List Nat) (action : MPVal)
    (vault : Option (List Char)) (nonce : Nat) : Option (List Nat) :=
  let data := packb action ++ beBytes 8 nonce
  match vault with
  | none => some (keccak (data ++ [0x00]))
  | some v =>
    match fromhexChars (strip0x v) with
    | some vb => some (keccak (data ++ 0x01 :: vb))
    | none => none

/-- Modelled from the spec: the Keccak preimage described in §4.1 — the
canonical msgpack serialization of the action, then the nonce as 8 big-endian
bytes, then `0x00` when no vault address is used, otherwise `0x01` followed by
the vault address bytes. -/
def specHashPreimage (action : MPVal) (nonce : Nat)
    (vaultBytes : Option (List Nat)) : List Nat :=
  packb action ++ beBytes 8 nonce ++
    (match vaultBytes with
     | none => [0x00]
     | some vb => 0x01 :: vb)

/-- Decoding a hex string halves its length. -/
theorem fromhexChars_length : ∀ (cs : List Char) (bs : List Nat),
    fromhexChars cs = some bs → 2 * bs.length = cs.length
  | [], bs, h => by
    simp [fromhexChars] at h
    subst h
    rfl
  | [_], bs, h => by
    simp [fromhexChars] at h
  | a :: b :: rest, bs, h => by
    simp only [fromhexChars] at h
    cases ha : hexVal a with
    | none => rw [ha] at h; simp at h
    | some x =>
      rw [ha] at h
      cases hb : hexVal b with
      | none => rw [hb] at h; simp at h
      | some y =>
        rw [hb] at h
        cases ht : fromhexChars rest with
        | none => rw [ht] at h; simp at h
        | some tail =>
          rw [ht] at h
          simp at h
          subst h
          have := fromhexChars_length rest tail ht
          simp only [List.length_cons]
          omega

/-- Claim C1: for every action, vault-address option and nonce, `hash_action`
returns the Keccak-256 hash of the canonical msgpack serialization of the
action, followed by the nonce as 8 big-endian bytes, followed by `0x00` when
the vault address is absent, or `0x01` followed by the 20 raw bytes of the
vault address when present (20 bytes whenever the address is 40 hex digits
after stripping the `0x` prefix). -/
theorem claim1_hash_action_preimage (keccak : List Nat → List Nat)
    (action : MPVal) (nonce : Nat) :
    hash_action keccak action none nonce
      = some (keccak (specHashPreimage action nonce none))
    ∧ ∀ (v : List Char) (vb : List Nat),
        fromhexChars (strip0x v) = some vb →
        hash_action keccak action (some v) nonce
            = some (keccak (specHashPreimage action nonce (some vb)))
          ∧ ((strip0x v).length = 40 → vb.length = 20) := by
  constructor
  · simp [hash_action, specHashPreimage]
  · intro v vb hv
    constructor
    · simp [hash_action, specHashPreimage, hv]
    · intro hlen
      have := fromhexChars_length _ _ hv
      omega

/-- Witness for C1 at a concrete vault address (40 zero digits), nonce 7 and
a one-entry action map, with `keccak` instantiated by the identity. -/
theorem claim1_witness :
    hash_action (fun l => l) (MPVal.map [("type", MPVal.str "order")])
        (some (List.replicate 40 '0')) 7
      = some (specHashPreimage (MPVal.map [("type", MPVal.str "order")]) 7
          (some (List.replicate 20 0)))
    ∧ (List.replicate 20 (0 : Nat)).length = 20 := by
  have h := (claim1_hash_action_preimage (fun l => l)
      (MPVal.map [("type", MPVal.str "order")]) 7).2
      (List.replicate 40 '0') (List.replicate 20 0) (by decide)
  exact ⟨h.1, h.2 (by decide)⟩

/-- Lowercase hex digit character, as produced by eth_utils `to_hex`. -/
def hexDigit (n : Nat) : Char :=
  if n < 10 then Char.ofNat (48 + n) else Char.ofNat (87 + n)

/-- Hex digit pairs of a byte string, most significant digit first. -/
def hexBytesChars : List Nat → List Char
  | [] => []
  | b :: rest => hexDigit (b / 16) :: hexDigit (b % 16) :: hexBytesChars rest

/-- eth_utils `to_hex` on a byte string: `0x` followed by two lowercase hex
digits per byte. -/
def toHexChars (bs : List Nat) : List Char :=
  '0' :: 'x' :: hexBytesChars bs

/-- The `{r, s, v}` signature dictionary returned by `sign_inner` (`r` and
`s` hex-encoded by `to_hex`, `v` a small integer). -/
structure Signature where
  r : String
  s : String
  v : Nat
  deriving DecidableEq

/-- The `connectionId` value placed in the `Agent` message: the scalping bot
and the order-book hunter pass the raw 32 hash bytes, the color trader the
`to_hex` encoding of the same hash. -/
inductive ConnId where
  | raw (bs : List Nat)
  | hex (cs : List Char)
  deriving DecidableEq

/-- One `{"name": ..., "type": ...}` entry of an EIP-712 type. -/
structure TypedField where
  name : String
  ftype : String
  deriving DecidableEq

/-- The EIP-712 typed-data dictionary built by `sign_action`, flattened into
a record (domain fields, the two declared types, primary type, and the
`Agent` message fields). -/
structure TypedData where
  chainId : Nat
  domainName : String
  verifyingContract : String
  version : String
  agentType : List TypedField
  domainType : List TypedField
  primaryType : String
  source : String
  connectionId : ConnId
  deriving DecidableEq

/-- Function `sign_inner`: encode the typed data and sign it with the account key.
`signer` stands for the composition of eth_account's `encode_typed_data`,
`sign_message` and the hex extraction of `r`, `s`, `v`. -/
def sign_inner (signer : TypedData → Signature) (data : TypedData) : Signature :=
  signer data

/-- The typed-data dictionary literally built by `sign_action` in all three
bots, up to the representation of `connectionId`. -/
def agentTypedData (isMainnet : Bool) (cid : ConnId) : TypedData :=
  { chainId := 1337
    domainName := "Exchange"
    verifyingContract := "0x0000000000000000000000000000000000000000"
    version := "1"
    agentType := [⟨"source", "string"⟩, ⟨"connectionId", "bytes32"⟩]
    domainType := [⟨"name", "string"⟩, ⟨"version", "string"⟩,
                   ⟨"chainId", "uint256"⟩, ⟨"verifyingContract", "address"⟩]
    primaryType := "Agent"
    source := if isMainnet then "a" else "b"
    connectionId := cid }

/-- Function `sign_action` of `ultimate_scalping_bot.py` and `order_book_hunter.py`:
hash the action and sign the `Agent` typed data whose `connectionId` is the
raw hash.  `none` propagates a `ValueError` from `hash_action`. -/
def sign_action (keccak : List Nat → List Nat) (signer : TypedData → Signature)
    (action : MPVal) (vault : Option (List Char)) (nonce : Nat)
    (isMainnet : Bool) : Option Signature :=
  (hash_action keccak action vault nonce).map fun h =>
    sign_inner signer (agentTypedData isMainnet (.raw h))

/-- Function `sign_action` of `experimental_color_trader.py`: identical except that
`connectionId` is `to_hex` of the hash. -/
def sign_action_ct (keccak : List Nat → List Nat) (signer : TypedData → Signature)
    (action : MPVal) (vault : Option (List Char)) (nonce : Nat)
    (isMainnet : Bool) : Option Signature :=
  (hash_action keccak action vault nonce).map fun h =>
    sign_inner signer (agentTypedData isMainnet (.hex (toHexChars h)))

/-- Decoding `hexVal` inverts `hexDigit` on digit values. -/
theorem hexVal_hexDigit (n : Nat) (h : n < 16) :
    hexVal (hexDigit n) = some n := by
  interval_cases n <;> decide

/-- Decoding inverts `to_hex` (after stripping the `0x` prefix) on byte
strings. -/
theorem fromhexChars_toHexChars (bs : List Nat) (h : ∀ b ∈ bs, b < 256) :
    fromhexChars (strip0x (toHexChars bs)) = some bs := by
  have key : ∀ l : List Nat, (∀ b ∈ l, b < 256) →
      fromhexChars (hexBytesChars l) = some l := by
    intro l
    induction l with
    | nil => intro _; rfl
    | cons b rest ih =>
      intro hb
      have hb0 : b < 256 := hb b (by simp)
      have hdiv : b / 16 < 16 := by omega
      have hmod : b % 16 < 16 := by omega
      have hbb : 16 * (b / 16) + b % 16 = b := by omega
      simp only [hexBytesChars, fromhexChars, hexVal_hexDigit _ hdiv,
        hexVal_hexDigit _ hmod, ih (fun x hx => hb x (by simp [hx])), hbb]
  simpa [toHexChars, strip0x] using key bs h

/-- Claim C2: for every action, vault, nonce and mainnet flag, `sign_action`
(in both its raw-bytes and hex `connectionId` variants) signs exactly the
EIP-712 typed data with domain `chainId = 1337`, name `"Exchange"`, the zero
verifying contract, version `"1"`, primary type `"Agent"`, a single `Agent`
message whose `source` is the one-character mainnet/testnet marker and whose
`connectionId` is the 32-byte hash produced by `hash_action`, and returns the
signer's `{r, s, v}` output. -/
theorem claim2_sign_action_structure (keccak : List Nat → List Nat)
    (signer : TypedData → Signature) (action : MPVal)
    (vault : Option (List Char)) (nonce : Nat) (isMainnet : Bool)
    (hklen : ∀ bs, (keccak bs).length = 32)
    (hkbyte : ∀ bs, ∀ b ∈ keccak bs, b < 256)
    (hvault : vault = none ∨
      ∃ v vb, vault = some v ∧ fromhexChars (strip0x v) = some vb) :
    ∃ h : List Nat,
      hash_action keccak action vault nonce = some h
      ∧ h.length = 32
      ∧ sign_action keccak signer action vault nonce isMainnet
          = some (signer
              { chainId := 1337
                domainName := "Exchange"
                verifyingContract := "0x0000000000000000000000000000000000000000"
                version := "1"
                agentType := [⟨"source", "string"⟩, ⟨"connectionId", "bytes32"⟩]
                domainType := [⟨"name", "string"⟩, ⟨"version", "string"⟩,
                               ⟨"chainId", "uint256"⟩,
                               ⟨"verifyingContract", "address"⟩]
                primaryType := "Agent"
                source := if isMainnet then "a" else "b"
                connectionId := .raw h })
      ∧ sign_action_ct keccak signer action vault nonce isMainnet
          = some (signer (agentTypedData isMainnet (.hex (toHexChars h))))
      ∧ fromhexChars (strip0x (toHexChars h)) = some h
      ∧ (if isMainnet then "a" else "b").length = 1 := by
  rcases hvault with hnone | ⟨v, vb, hv, hvb⟩
  · subst hnone
    refine ⟨keccak ((packb action ++ beBytes 8 nonce) ++ [0x00]), ?_, hklen _,
      ?_, ?_, fromhexChars_toHexChars _ (hkbyte _), ?_⟩
    · simp [hash_action]
    · simp [sign_action, hash_action, sign_inner, agentTypedData]
    · simp [sign_action_ct, hash_action, sign_inner]
    · cases isMainnet <;> rfl
  · subst hv
    refine ⟨keccak ((packb action ++ beBytes 8 nonce) ++ 0x01 :: vb), ?_, hklen _,
      ?_, ?_, fromhexChars_toHexChars _ (hkbyte _), ?_⟩
    · simp [hash_action, hvb]
    · simp [sign_action, hash_action, hvb, sign_inner, agentTypedData]
    · simp [sign_action_ct, hash_action, hvb, sign_inner]
    · cases isMainnet <;> rfl

/-- A constant keccak stand-in used only to instantiate witnesses. -/
def keccak0 : List Nat → List Nat := fun _ => List.replicate 32 0

/-- A constant EIP-712 signer stand-in used only to instantiate witnesses. -/
def signer0 : TypedData → Signature := fun _ => ⟨"0x1", "0x2", 27⟩

/-- Witness for C2 with a constant 32-byte keccak, a constant signer, a
concrete action and no vault address. -/
theorem claim2_witness :
    ∃ h : List Nat,
      hash_action keccak0 (MPVal.str "x") none 3 = some h
      ∧ h.length = 32
      ∧ sign_action keccak0 signer0 (MPVal.str "x") none 3 true
          = some (signer0
              { chainId := 1337
                domainName := "Exchange"
                verifyingContract := "0x0000000000000000000000000000000000000000"
                version := "1"
                agentType := [⟨"source", "string"⟩, ⟨"connectionId", "bytes32"⟩]
                domainType := [⟨"name", "string"⟩, ⟨"version", "string"⟩,
                               ⟨"chainId", "uint256"⟩,
                               ⟨"verifyingContract", "address"⟩]
                primaryType := "Agent"
                source := if true then "a" else "b"
                connectionId := .raw h })
      ∧ sign_action_ct keccak0 signer0 (MPVal.str "x") none 3 true
          = some (signer0 (agentTypedData true (.hex (toHexChars h))))
      ∧ fromhexChars (strip0x (toHexChars h)) = some h
      ∧ (if true then "a" else "b").length = 1 :=
  claim2_sign_action_structure keccak0 signer0 (MPVal.str "x") none 3 true
    (fun _ => by simp [keccak0])
    (fun _ b hb => by
      simp [keccak0] at hb
      omega)
    (Or.inl rfl)

/-- Round a rational to the nearest integer, ties to even: the rounding used
both by Python's `round()` and by `format`/f-string fixed-point formatting
(floats are modelled by the exact rationals they denote). -/
def roundTE (q : ℚ) : ℤ :=
  let n := q.num.fdiv q.den
  let f := q - n
  if f < 1 / 2 then n
  else if 1 / 2 < f then n + 1
  else if n % 2 = 0 then n else n + 1

/-- Python `round(x, 2)`, used for prices and sizes throughout the bots. -/
def pyround2 (x : ℚ) : ℚ :=
  (roundTE (x * 100) : ℚ) / 100

/-- The rational denoted by the string `f"{x:.8f}"`. -/
def round8 (x : ℚ) : ℚ :=
  (roundTE (x * 10 ^ 8) : ℚ) / 10 ^ 8

/-- Function `round_float` of `ultimate_scalping_bot.py` and `order_book_hunter.py`:
format at 8 decimals (`round8`), raise `ValueError` when parsing the result
back differs from the input by at least `1e-12`, otherwise return the
normalized decimal string.  Strings are modelled by the rational value they
denote (`"-0"` replacement and `Decimal(...).normalize()` are
value-preserving, and `f"{x:.8f}"` is never the string `"-0"`). -/
def round_float (x : ℚ) : Except String ℚ :=
  if |round8 x - x| ≥ 1 / 10 ^ 12 then .error "round_float causes rounding"
  else .ok (round8 x)

/-- Function `round_float` of `experimental_color_trader.py`: `str(int(round(value)))`
for 0 decimals and the f-string fixed-point formatting otherwise, again
modelled by the denoted rational value.  It never raises. -/
def round_float_ct (value : ℚ) (decimals : Nat) : ℚ :=
  if decimals = 0 then (roundTE value : ℚ)
  else (roundTE (value * 10 ^ decimals) : ℚ) / 10 ^ decimals

/-- Rounding `roundTE` in terms of the mathematical floor. -/
theorem roundTE_eq (q : ℚ) :
    roundTE q = if q - ⌊q⌋ < 1 / 2 then ⌊q⌋
      else if 1 / 2 < q - ⌊q⌋ then ⌊q⌋ + 1
      else if ⌊q⌋ % 2 = 0 then ⌊q⌋ else ⌊q⌋ + 1 := by
  have h : q.num.fdiv (q.den : ℤ) = ⌊q⌋ := by
    rw [Rat.floor_def, Int.fdiv_eq_ediv _ (Int.natCast_nonneg q.den)]
  simp only [roundTE, h]

/-- Rounding an integer is the identity. -/
theorem roundTE_intCast (k : ℤ) : roundTE (k : ℚ) = k := by
  rw [roundTE_eq]
  norm_num

/-- Counterexample to claim C3 as stated.  The color trader's `round_float`
silently rounds `0.123` to the string `"0.12"` (value `3/25`), returning a
truncated value instead of failing; and even the strict variant silently
turns the input `1e-13`, which is not representable at 8 decimals, into the
string `"0"` (its `1e-12` tolerance accepts the loss) instead of raising. -/
instance : DecidableEq (Except String ℚ) := fun a b =>
  match a, b with
  | .ok x, .ok y => decidable_of_iff (x = y) (by simp)
  | .error x, .error y => decidable_of_iff (x = y) (by simp)
  | .ok _, .error _ => isFalse (by simp)
  | .error _, .ok _ => isFalse (by simp)

theorem claim3_counterexample :
    round_float_ct (123 / 1000) 2 = 3 / 25
    ∧ (3 / 25 : ℚ) ≠ 123 / 1000
    ∧ round_float (1 / 10 ^ 13) = .ok 0
    ∧ (0 : ℚ) ≠ 1 / 10 ^ 13 := by
  have f1 : ⌊(123 / 10 : ℚ)⌋ = 12 := by
    rw [Int.floor_eq_iff]
    norm_num
  have r1 : roundTE (123 / 10) = 12 := by
    rw [roundTE_eq, f1]
    norm_num
  have c1 : round_float_ct (123 / 1000) 2 = 3 / 25 := by
    rw [round_float_ct, if_neg (by norm_num : ¬ (2 = 0))]
    have e1 : ((123 : ℚ) / 1000) * 10 ^ 2 = 123 / 10 := by norm_num
    rw [e1, r1]
    norm_num
  have f2 : ⌊(1 / 10 ^ 5 : ℚ)⌋ = 0 := by
    rw [Int.floor_eq_iff]
    norm_num
  have r2 : roundTE (1 / 10 ^ 5) = 0 := by
    rw [roundTE_eq, f2]
    norm_num
  have h8 : round8 (1 / 10 ^ 13) = 0 := by
    rw [round8]
    have e2 : ((1 : ℚ) / 10 ^ 13) * 10 ^ 8 = 1 / 10 ^ 5 := by norm_num
    rw [e2, r2]
    norm_num
  have c2 : round_float (1 / 10 ^ 13) = .ok 0 := by
    rw [round_float, h8, if_neg]
    rw [zero_sub, abs_neg, abs_of_nonneg (by positivity)]
    norm_num
  exact ⟨c1, by norm_num, c2, by norm_num⟩

/-- Claim C3, amended: for the strict `round_float` of the scalping bot and
the order-book hunter, an input exactly representable at 8 decimal places is
returned losslessly; any returned value differs from the input by less than
`1e-12` (so drift strictly below the `1e-12` tolerance — like `1e-13`,
which becomes `0` — is silently absorbed rather than raising); and an input
whose 8-decimal formatting moves it by at least `1e-12` raises `ValueError`
instead of being silently rounded.  (The color trader's 2-decimal
`round_float` variant always rounds silently, as the counterexample shows.) -/
theorem claim3_round_float_amended (x : ℚ) :
    ((∃ k : ℤ, x = (k : ℚ) / 10 ^ 8) → round_float x = .ok x)
    ∧ (∀ v, round_float x = .ok v → |v - x| < 1 / 10 ^ 12)
    ∧ (|round8 x - x| ≥ 1 / 10 ^ 12 →
        round_float x = .error "round_float causes rounding") := by
  refine ⟨?_, ?_, ?_⟩
  · rintro ⟨k, rfl⟩
    have h8 : round8 ((k : ℚ) / 10 ^ 8) = (k : ℚ) / 10 ^ 8 := by
      have hmul : ((k : ℚ) / 10 ^ 8) * 10 ^ 8 = (k : ℚ) := by field_simp
      rw [round8, hmul, roundTE_intCast]
    simp only [round_float, h8, sub_self, abs_zero]
    rw [if_neg]
    norm_num
  · intro v hv
    simp only [round_float] at hv
    split at hv
    · exact absurd hv (by simp)
    · rename_i hcond
      injection hv with h
      rw [← h]
      exact not_le.mp hcond
  · intro hc
    simp only [round_float]
    rw [if_pos hc]

/-- Witness for C3's amended theorem: `0.123` is exactly representable at 8
decimals and round-trips losslessly through the strict `round_float`. -/
theorem claim3_witness : round_float (123 / 1000) = .ok (123 / 1000) :=
  (claim3_round_float_amended (123 / 1000)).1 ⟨12300000, by norm_num⟩

/-- Python's builtin `min` on two values (returns the first on ties). -/
def pyMin (a b : ℚ) : ℚ :=
  if a ≤ b then a else b

/-- Python's builtin `max` on two values (returns the first on ties). -/
def pyMax (a b : ℚ) : ℚ :=
  if b ≤ a then a else b

/-- Python `str.lower` restricted to ASCII, character by character
(signal strings are `"LONG"`/`"SHORT"`). -/
def pyLower (s : String) : String :=
  ⟨s.data.map Char.toLower⟩

/-- The fields of a `filled` entry of the response statuses that the bots
read (`oid`, `totalSz`, `avgPx`). -/
structure FilledData where
  oid : Nat
  totalSz : ℚ
  avgPx : ℚ
  deriving DecidableEq

/-- One entry of `response.data.statuses`. -/
inductive OrderStatus where
  | filled (f : FilledData)
  | resting (oid : Nat)
  | error (msg : String)
  deriving DecidableEq

/-- Outcome of one HTTP submission, as the bots can observe it:
`httpError` covers a non-200 response and exceptions inside `requests.post`
(`place_order_raw` returns `None` / an `HTTP ...` error dict), `malformed`
a 200 body without `status == "ok"` and `response.data` (in particular the
exchange's top-level `status: "error"` shape), and `ok` a well-formed body
with its statuses array. -/
inductive SubmitOutcome where
  | httpError
  | malformed
  | ok (statuses : List OrderStatus)
  deriving DecidableEq

/-- Time-in-force marker of a limit order. -/
inductive OrderTif where
  | ioc
  | gtc
  deriving DecidableEq

/-- The `"t"` field of an order dict. -/
inductive OrderT where
  | limit (tif : OrderTif)
  | trigger (isMarket : Bool) (triggerPx : ℚ) (tpsl : String)
  deriving DecidableEq

/-- One order dict as submitted to the exchange (`a`, `b`, `p`, `s`, `r`,
`t`); the decimal-string fields `p` and `s` are modelled by their rational
values. -/
structure OrderReq where
  a : Nat
  b : Bool
  p : ℚ
  s : ℚ
  r : Bool
  t : OrderT
  deriving DecidableEq

/-- Externally visible events of one bot-method call: a single-order
submission, a grouped submission, a cancel-all request, or a sleep of the
given number of seconds. -/
inductive Ev where
  | submit (o : OrderReq)
  | submitGroup (os : List OrderReq)
  | cancelAll
  | sleep (secs : ℚ)
  deriving DecidableEq

/-- Position-tracking state of `ExperimentalColorTrader`. -/
structure CTState where
  current_position : Option String
  position_open : Bool
  entry_order_data : Option FilledData
  position_size : Option ℚ
  position_direction : Option String
  current_signal : Option String
  deriving DecidableEq

/-- First `filled` entry of a statuses array (the bots' `for status in
statuses: if 'filled' in status` loop). -/
def firstFilled (statuses : List OrderStatus) : Option FilledData :=
  statuses.findSome? fun st =>
    match st with
    | .filled f => some f
    | _ => none

/-- Method `ExperimentalColorTrader.enter_position`: size the order from the $4000
position target at the given entry price, submit an IOC limit order 1% through
the market, and on a response containing a `filled` status record the
position; any other outcome leaves the state unchanged and returns `False`.
The submission itself is `place_order_raw` (nonce, signing and POST); its
observable order payload is recorded as an event. -/
def ct_enter_position (st : CTState) (direction : String) (entry_price : ℚ)
    (out : SubmitOutcome) : CTState × Bool × List Ev :=
  let position_size_sol := pyMax (1 / 100) (pyround2 (4000 / entry_price))
  let is_buy := pyLower direction = "long"
  let order_price :=
    if is_buy then pyround2 (entry_price * (101 / 100))
    else pyround2 (entry_price * (99 / 100))
  let req : OrderReq :=
    { a := 5, b := is_buy, p := round_float_ct order_price 2,
      s := round_float_ct position_size_sol 2, r := false, t := .limit .ioc }
  match out with
  | .ok statuses =>
    match firstFilled statuses with
    | some f =>
      ({ st with entry_order_data := some f
                 position_size := some f.totalSz
                 position_direction := some (pyLower direction)
                 position_open := true
                 current_position := some (pyLower direction) },
       true, [.submit req])
    | none => (st, false, [.submit req])
  | _ => (st, false, [.submit req])

/-- Method `ExperimentalColorTrader.close_position`: `True` with no submission when
no position is open (the `finally` block still blanks the auxiliary fields
in that case); `False` with no submission when the direction is unset (the
`position_direction.upper()` print raises) or the price feed fails; otherwise
submit a reduce-only IOC close (estimating the size when the stored one is
falsy, a mutation that survives error outcomes) and clear the position only
when the response contains a `filled` status. -/
def ct_close_position (st : CTState) (price : Option ℚ)
    (out : SubmitOutcome) : CTState × Bool × List Ev :=
  if st.position_open = false then
    ({ st with entry_order_data := none
               position_size := none
               position_direction := none
               current_position := none }, true, [])
  else
    match st.position_direction with
    | none => (st, false, [])
    | some dir =>
      match price with
      | none => (st, false, [])
      | some current_price =>
        let sz :=
          match st.position_size with
          | some s => if s = 0 then pyround2 (4000 / current_price) else s
          | none => pyround2 (4000 / current_price)
        let st1 := { st with position_size := some sz }
        let is_buy := !(dir == "long")
        let close_price :=
          if is_buy then pyround2 (current_price * (101 / 100))
          else pyround2 (current_price * (99 / 100))
        let req : OrderReq :=
          { a := 5, b := is_buy, p := round_float_ct close_price 2,
            s := round_float_ct sz 2, r := true, t := .limit .ioc }
        match out with
        | .ok statuses =>
          match firstFilled statuses with
          | some _ =>
            ({ st1 with entry_order_data := none
                        position_size := none
                        position_direction := none
                        position_open := false
                        current_position := none }, true, [.submit req])
          | none => (st1, false, [.submit req])
        | _ => (st1, false, [.submit req])

/-- Method `ExperimentalColorTrader.flip_position`: fetch the price (`p1`); when a
position is open and entry data is stored, close it first (the close fetches
its own price `p2` and sees outcome `co`) and stop on failure; otherwise or
afterwards (after a fixed 10-second settlement sleep) enter the new
direction with outcome `eo`. -/
def ct_flip_position (st : CTState) (new_direction : String)
    (p1 p2 : Option ℚ) (co eo : SubmitOutcome) : CTState × Bool × List Ev :=
  match p1 with
  | none => (st, false, [])
  | some current_price =>
    if st.position_open && st.entry_order_data.isSome then
      let res := ct_close_position st p2 co
      if res.2.1 = false then (res.1, false, res.2.2)
      else
        let res2 := ct_enter_position res.1 new_direction current_price eo
        if res2.2.1 then
          ({ res2.1 with current_position := some new_direction }, true,
           res.2.2 ++ [.sleep 10] ++ res2.2.2)
        else (res2.1, false, res.2.2 ++ [.sleep 10] ++ res2.2.2)
    else
      let res2 := ct_enter_position st new_direction current_price eo
      if res2.2.1 then
        ({ res2.1 with current_position := some new_direction }, true, res2.2.2)
      else (res2.1, false, res2.2.2)

/-- The signal-handling body of `ExperimentalColorTrader.run` for one tick:
nothing on no signal or an unchanged signal; on a changed signal, flip only
when the signalled direction differs from `current_position`, and record the
signal either way. -/
def ct_tick (st : CTState) (signal : Option String) (p1 p2 : Option ℚ)
    (co eo : SubmitOutcome) : CTState × List Ev :=
  match signal with
  | none => (st, [])
  | some sig =>
    if st.current_signal = some sig then (st, [])
    else
      if st.current_position = some (pyLower sig) then
        ({ st with current_signal := some sig }, [])
      else
        let res := ct_flip_position st (pyLower sig) p1 p2 co eo
        ({ res.1 with current_signal := some sig }, res.2.2)

/-- Position-tracking state of `OrderBookHunter`.  `entry_order_data` stores
the whole first status entry (`main_status`), not just its `filled` payload. -/
structure OBHState where
  position_open : Bool
  entry_time : Option ℚ
  entry_price : Option ℚ
  entry_order_data : Option OrderStatus
  position_direction : Option String
  position_size : Option ℚ
  deriving DecidableEq

/-- The hunter's state with every position field reset, as produced by the
unconditional `finally` block of `OrderBookHunter.close_position`. -/
def obhCleared : OBHState :=
  { position_open := false, entry_time := none, entry_price := none,
    entry_order_data := none, position_direction := none,
    position_size := none }

/-- The order-book snapshot fields read by `OrderBookHunter.enter_position`. -/
structure Snapshot where
  imbalance : ℚ
  best_bid : ℚ
  best_ask : ℚ
  deriving DecidableEq

/-- Function `round_float` as used inside order construction: `some` of the formatted
value, or `none` for the `ValueError` path. -/
def rf? (x : ℚ) : Option ℚ :=
  (round_float x).toOption

/-- Entry price selection of `OrderBookHunter.enter_position`: ask side for
longs, bid side for shorts. -/
def obh_entry_price (direction : String) (snap : Snapshot) : ℚ :=
  if direction = "long" then snap.best_ask else snap.best_bid

/-- Order construction of `OrderBookHunter.enter_position`: size the position
from the imbalance strength and build the grouped entry + stop-loss +
take-profit orders; `none` models a `ValueError` from `round_float` (caught
by the surrounding `except` before anything is submitted). -/
def obh_orders (direction : String) (snap : Snapshot) : Option (List OrderReq) :=
  let imbalance_strength := |snap.imbalance - 1|
  let size_multiplier := pyMin (imbalance_strength / 2) (167 / 100)
  let position_usd := pyMin (300 * size_multiplier) 500
  let entry_price := obh_entry_price direction snap
  let tp_price :=
    if direction = "long" then pyround2 (entry_price * (1 + 25 / 10000))
    else pyround2 (entry_price * (1 - 25 / 10000))
  let sl_price :=
    if direction = "long" then pyround2 (entry_price * (1 - 10 / 10000))
    else pyround2 (entry_price * (1 + 10 / 10000))
  let is_buy := direction = "long"
  let position_size := pyround2 (position_usd / entry_price)
  (rf? (entry_price + (if is_buy then 1 / 10 else -(1 / 10)))).bind fun pe =>
  (rf? position_size).bind fun ps =>
  (rf? (if is_buy then sl_price + 1 else sl_price - 1)).bind fun psl =>
  (rf? sl_price).bind fun tsl =>
  (rf? tp_price).map fun ptp =>
    [{ a := 5, b := is_buy, p := pe, s := ps, r := false, t := .limit .ioc },
     { a := 5, b := !is_buy, p := psl, s := ps, r := true,
       t := .trigger true tsl "sl" },
     { a := 5, b := !is_buy, p := ptp, s := ps, r := true,
       t := .trigger true ptp "tp" }]

/-- Method `OrderBookHunter.enter_position`: build the grouped orders and submit
them with `place_grouped_order`.  Of the response, only `statuses[0]` is
inspected: an `error` there leaves the state unchanged; a `filled` there
records entry data, size and direction; in every non-`error`-first `ok`
response `position_open`, `entry_time` and `entry_price` are set.  A
`round_float` `ValueError` (or any other exception) is caught with no state
change and no submission. -/
def obh_enter_position (st : OBHState) (direction : String) (snap : Snapshot)
    (now : ℚ) (out : SubmitOutcome) : OBHState × List Ev :=
  match obh_orders direction snap with
  | none => (st, [])
  | some orders =>
    match out with
    | .ok statuses =>
      match statuses.head? with
      | some (.error _) => (st, [.submitGroup orders])
      | some (.filled f) =>
        ({ st with entry_order_data := some (.filled f)
                   position_size := some f.totalSz
                   position_direction := some direction
                   position_open := true
                   entry_time := some now
                   entry_price := some (obh_entry_price direction snap) },
         [.submitGroup orders])
      | _ =>
        ({ st with position_open := true
                   entry_time := some now
                   entry_price := some (obh_entry_price direction snap) },
         [.submitGroup orders])
    | _ => (st, [.submitGroup orders])

/-- Method `OrderBookHunter.close_position`: early (non-error) return when no
position is open or no entry order data is stored; otherwise read the stored
`filled` payload (a `KeyError` aborts when the stored status has none),
cancel open orders, and submit a reduce-only IOC close at the current price
± 0.50 for the originally filled size.  Whatever happens — success, error
response, missing price or exception — the `finally` block resets every
position field, so the resulting state is always `obhCleared`. -/
def obh_close_position (st : OBHState) (price : Option ℚ)
    (out : SubmitOutcome) : OBHState × List Ev :=
  if st.position_open = false ∨ st.entry_order_data = none then
    (obhCleared, [])
  else
    match st.entry_order_data with
    | some (.filled f) =>
      match price with
      | none => (obhCleared, [.cancelAll])
      | some current_price =>
        let is_buy := st.position_direction = some "short"
        let close_price :=
          if is_buy then pyround2 (current_price + 1 / 2)
          else pyround2 (current_price - 1 / 2)
        match rf? close_price, rf? f.totalSz with
        | some p, some s =>
          (obhCleared,
           [.cancelAll,
            .submit { a := 5, b := is_buy, p := p, s := s, r := true,
                      t := .limit .ioc }])
        | _, _ => (obhCleared, [.cancelAll])
    | _ => (obhCleared, [])

/-- Result of `UltimateScalpingBot.place_grouped_order`: the `oid` of a
`resting` first status, a bare `True` on any other `ok` response, `False`
otherwise.  Only `statuses[0]` is read. -/
inductive GroupedResult where
  | oid (n : Nat)
  | okTrue
  | failed
  deriving DecidableEq

/-- Response interpretation of `UltimateScalpingBot.place_grouped_order`. -/
def usb_grouped_result (out : SubmitOutcome) : GroupedResult :=
  match out with
  | .ok statuses =>
    match statuses.head? with
    | some (.resting n) => .oid n
    | _ => .okTrue
  | _ => .failed

/-- The nonce of one submission: `int(time.time() * 1000)` for a wall-clock
reading of `t` seconds (all three bots; non-negative clock readings, where
Python's truncating `int` is the floor). -/
def mkNonce (t : ℚ) : Nat :=
  (⌊1000 * t⌋).toNat

/-- The JSON payload POSTed by `place_order_raw` / `place_grouped_order`. -/
structure Payload where
  action : MPVal
  nonce : Nat
  signature : Option Signature
  vaultAddress : Option (List Char)

/-- Payload assembly of `place_order_raw` (identical in
`place_grouped_order`): nonce from the wall clock, signature from
`sign_action` with no vault on mainnet. -/
def place_order_payload (keccak : List Nat → List Nat)
    (signer : TypedData → Signature) (action : MPVal) (t : ℚ) : Payload :=
  { action := action
    nonce := mkNonce t
    signature := sign_action keccak signer action none (mkNonce t) true
    vaultAddress := none }

/-- Method `OrderBookHunter.close_position` always ends in the fully reset state:
its `finally` block runs on every path, success or error. -/
theorem obh_close_position_clears (st : OBHState) (price : Option ℚ)
    (out : SubmitOutcome) :
    (obh_close_position st price out).1 = obhCleared := by
  rw [obh_close_position]
  split
  · rfl
  · split
    · split
      · rfl
      · dsimp only
        split <;> rfl
    · rfl

/-- A color-trader state with an open long position, used to instantiate
witnesses. -/
def ctOpenLong : CTState :=
  { current_position := some "long", position_open := true,
    entry_order_data := some ⟨1, 3, 100⟩, position_size := some 3,
    position_direction := some "long", current_signal := some "LONG" }

/-- A hunter state with an open long position whose entry order data is
stored, used for the C4 counterexample. -/
def c4State : OBHState :=
  { position_open := true, entry_time := some 0, entry_price := some 100,
    entry_order_data := some (.filled ⟨1, 3, 100⟩),
    position_direction := some "long", position_size := some 3 }

/-- Counterexample to claim C4 as stated: with an open position and an
erroring close submission (non-200 HTTP status), `OrderBookHunter.
close_position` does not keep its state — the `finally` block clears every
position field, flipping `position_open` from `true` to `false`. -/
theorem claim4_counterexample :
    (obh_close_position c4State (some 100) .httpError).1.position_open = false
    ∧ c4State.position_open = true := by
  refine ⟨?_, rfl⟩
  rw [obh_close_position_clears]
  rfl

/-- Claim C4, amended: in the color trader, an error outcome (non-200,
exception, or a 200 body without `response.data`, which includes the
exchange's `status: "error"` shape) leaves `enter_position`'s state entirely
unchanged and, for `close_position` on an open position, preserves
`position_open`, `position_direction`, `entry_order_data` and
`current_position` (only a falsy `position_size` may be replaced by an
estimate); the order-book hunter's `close_position`, by contrast, always
resets every position field regardless of outcome. -/
theorem claim4_error_leaves_state (st : CTState) (d : String) (p cp : ℚ)
    (stO : OBHState) (po : Option ℚ) (out : SubmitOutcome)
    (herr : out = .httpError ∨ out = .malformed) :
    (ct_enter_position st d p out).1 = st
    ∧ (ct_enter_position st d p out).2.1 = false
    ∧ (st.position_open = true →
        (ct_close_position st (some cp) out).1.position_open = st.position_open
        ∧ (ct_close_position st (some cp) out).1.position_direction
            = st.position_direction
        ∧ (ct_close_position st (some cp) out).1.entry_order_data
            = st.entry_order_data
        ∧ (ct_close_position st (some cp) out).1.current_position
            = st.current_position
        ∧ (ct_close_position st (some cp) out).2.1 = false)
    ∧ (obh_close_position stO po out).1 = obhCleared := by
  refine ⟨?_, ?_, ?_, obh_close_position_clears stO po out⟩
  · rcases herr with h | h <;> subst h <;> rfl
  · rcases herr with h | h <;> subst h <;> rfl
  · intro hopen
    rw [ct_close_position, if_neg (by simp [hopen])]
    cases hdir : st.position_direction with
    | none => exact ⟨by simp [hopen], by simp [hdir], rfl, rfl, rfl⟩
    | some dir =>
      rcases herr with h | h <;> subst h
      · exact ⟨by simp [hopen], by simp [hdir], rfl, rfl, rfl⟩
      · exact ⟨by simp [hopen], by simp [hdir], rfl, rfl, rfl⟩

/-- Witness for C4's amended theorem at a concrete open-long state and an
HTTP-error outcome. -/
theorem claim4_witness :
    (ct_enter_position ctOpenLong "short" 100 .httpError).1 = ctOpenLong
    ∧ (ct_close_position ctOpenLong (some 100) .httpError).1.position_open
        = ctOpenLong.position_open
    ∧ (obh_close_position c4State (some 100) .httpError).1 = obhCleared :=
  have h := claim4_error_leaves_state ctOpenLong "short" 100 100 c4State
    (some 100) .httpError (Or.inl rfl)
  ⟨h.1, (h.2.2.1 rfl).1, h.2.2.2⟩

/-- The color trader's state with nothing open and nothing stored. -/
def ctFlat : CTState :=
  { current_position := none, position_open := false,
    entry_order_data := none, position_size := none,
    position_direction := none, current_signal := none }

/-- A hunter state recorded open (e.g. after a `resting` grouped entry)
without stored entry order data, used for the C10 counterexample. -/
def c10State : OBHState :=
  { position_open := true, entry_time := some 5, entry_price := some 100,
    entry_order_data := none, position_direction := some "long",
    position_size := some 3 }

/-- Counterexample to claim C10 as stated: calling the hunter's
`close_position` with no stored entry order data indeed submits nothing, but
does not leave the state unchanged — the `finally` block resets every field,
in particular flipping `position_open` from `true` to `false`. -/
theorem claim10_counterexample :
    obh_close_position c10State (some 100) .httpError = (obhCleared, [])
    ∧ c10State.entry_order_data = none
    ∧ c10State.position_open = true
    ∧ obhCleared.position_open = false := by
  refine ⟨?_, rfl, rfl, rfl⟩
  rw [obh_close_position,
    if_pos (show c10State.position_open = false ∨ c10State.entry_order_data = none
      from Or.inr rfl)]

/-- Claim C10, amended: with no open position the color trader's
`close_position` submits no order, performs no HTTP request and returns
`True`, leaving `position_open` untouched but blanking the four auxiliary
fields (a no-op exactly when they are already cleared); the hunter's
`close_position` with no open position or no stored entry data likewise
performs no HTTP request and returns normally, but resets every position
field via its `finally` block. -/
theorem claim10_close_without_position (stc : CTState) (sto : OBHState)
    (pc po : Option ℚ) (oc oo : SubmitOutcome)
    (hc : stc.position_open = false)
    (ho : sto.position_open = false ∨ sto.entry_order_data = none) :
    ct_close_position stc pc oc
      = ({ stc with
            entry_order_data := none
            position_size := none
            position_direction := none
            current_position := none }, true, [])
    ∧ obh_close_position sto po oo = (obhCleared, []) := by
  constructor
  · rw [ct_close_position, if_pos hc]
  · rw [obh_close_position, if_pos ho]

/-- Witness for C10's amended theorem at the flat color-trader state and the
reset hunter state. -/
theorem claim10_witness :
    ct_close_position ctFlat none .httpError = (ctFlat, true, [])
    ∧ obh_close_position obhCleared none .httpError = (obhCleared, []) :=
  claim10_close_without_position ctFlat obhCleared none none .httpError
    .httpError rfl (Or.inl rfl)

/-- An outcome whose statuses contain no `filled` entry (resting or error
legs only), or an outcome that is not a well-formed `ok` response at all. -/
def noFill : SubmitOutcome → Prop
  | .ok statuses => firstFilled statuses = none
  | _ => True

/-- An `ok` outcome whose statuses contain a `filled` entry. -/
def hasFill : SubmitOutcome → Prop
  | .ok statuses => (firstFilled statuses).isSome = true
  | _ => False

/-- On an open position, a close whose response carries no `filled` status
returns `False` and keeps the position recorded (direction, entry data and
`current_position` untouched; only `position_size` may gain an estimate),
having submitted at most one reduce-only order. -/
theorem ct_close_position_nofill (st : CTState) (p2 : ℚ) (co : SubmitOutcome)
    (hopen : st.position_open = true) (hnf : noFill co) :
    (ct_close_position st (some p2) co).2.1 = false
    ∧ (ct_close_position st (some p2) co).1.position_open = true
    ∧ (ct_close_position st (some p2) co).1.position_direction
        = st.position_direction
    ∧ (ct_close_position st (some p2) co).1.entry_order_data
        = st.entry_order_data
    ∧ (ct_close_position st (some p2) co).1.current_position
        = st.current_position
    ∧ ((ct_close_position st (some p2) co).2.2 = []
        ∨ ∃ creq, (ct_close_position st (some p2) co).2.2 = [.submit creq]
            ∧ creq.r = true) := by
  rw [ct_close_position, if_neg (by simp [hopen])]
  cases hdir : st.position_direction with
  | none => exact ⟨rfl, hopen, hdir, rfl, rfl, Or.inl rfl⟩
  | some dir =>
    cases co with
    | httpError =>
      exact ⟨rfl, hopen, rfl, rfl, rfl, Or.inr ⟨_, rfl, rfl⟩⟩
    | malformed =>
      exact ⟨rfl, hopen, rfl, rfl, rfl, Or.inr ⟨_, rfl, rfl⟩⟩
    | ok statuses =>
      have hff : firstFilled statuses = none := hnf
      dsimp only
      rw [hff]
      exact ⟨rfl, hopen, rfl, rfl, rfl, Or.inr ⟨_, rfl, rfl⟩⟩

/-- Claim C5: when the close submission of a flip comes back without a
`filled` status for its order (resting, error legs, HTTP error or malformed
body), the flip reports failure, the position is not cleared (direction,
entry data and `current_position` survive, `position_open` stays `true`),
and no entry order is ever submitted — every submitted order of the whole
flip is the single reduce-only close, and no grouped submission occurs. -/
theorem claim5_unfilled_close_blocks_entry (st : CTState) (nd : String)
    (p1 p2 : ℚ) (co eo : SubmitOutcome)
    (hopen : st.position_open = true)
    (hdata : st.entry_order_data.isSome = true)
    (hnf : noFill co) :
    (ct_flip_position st nd (some p1) (some p2) co eo).2.1 = false
    ∧ (ct_flip_position st nd (some p1) (some p2) co eo).1.position_open = true
    ∧ (ct_flip_position st nd (some p1) (some p2) co eo).1.position_direction
        = st.position_direction
    ∧ (ct_flip_position st nd (some p1) (some p2) co eo).1.entry_order_data
        = st.entry_order_data
    ∧ (ct_flip_position st nd (some p1) (some p2) co eo).1.current_position
        = st.current_position
    ∧ ((ct_flip_position st nd (some p1) (some p2) co eo).2.2 = []
        ∨ ∃ creq,
            (ct_flip_position st nd (some p1) (some p2) co eo).2.2
              = [.submit creq] ∧ creq.r = true) := by
  obtain ⟨hret, hopen', hdir', hdata', hcur', hevs⟩ :=
    ct_close_position_nofill st p2 co hopen hnf
  have hflip : ct_flip_position st nd (some p1) (some p2) co eo
      = ((ct_close_position st (some p2) co).1, false,
         (ct_close_position st (some p2) co).2.2) := by
    simp only [ct_flip_position, hopen, hdata, Bool.and_self, hret, if_true]
  rw [hflip]
  exact ⟨rfl, hopen', hdir', hdata', hcur', hevs⟩

/-- Witness for C5 at the open-long state, with a close response whose only
status is `resting`. -/
theorem claim5_witness :
    (ct_flip_position ctOpenLong "short" (some 100) (some 100)
        (.ok [.resting 9]) .httpError).2.1 = false
    ∧ (ct_flip_position ctOpenLong "short" (some 100) (some 100)
        (.ok [.resting 9]) .httpError).1.position_open = true
    ∧ (ct_flip_position ctOpenLong "short" (some 100) (some 100)
        (.ok [.resting 9]) .httpError).1.position_direction
        = ctOpenLong.position_direction
    ∧ (ct_flip_position ctOpenLong "short" (some 100) (some 100)
        (.ok [.resting 9]) .httpError).1.entry_order_data
        = ctOpenLong.entry_order_data
    ∧ (ct_flip_position ctOpenLong "short" (some 100) (some 100)
        (.ok [.resting 9]) .httpError).1.current_position
        = ctOpenLong.current_position
    ∧ ((ct_flip_position ctOpenLong "short" (some 100) (some 100)
        (.ok [.resting 9]) .httpError).2.2 = []
        ∨ ∃ creq,
            (ct_flip_position ctOpenLong "short" (some 100) (some 100)
              (.ok [.resting 9]) .httpError).2.2
              = [.submit creq] ∧ creq.r = true) :=
  claim5_unfilled_close_blocks_entry ctOpenLong "short" 100 100
    (.ok [.resting 9]) .httpError rfl rfl rfl

/-- Claim C8: while a position in some direction is held, a signal for that
same direction causes no transition — the tick submits nothing (no order,
no flip) and every position field is unchanged (only `current_signal` may be
recorded).  This covers both the unchanged-signal guard and the
`signal.lower() != current_position` guard of the run loop. -/
theorem claim8_idempotent_signal (st : CTState) (sig : String)
    (p1 p2 : Option ℚ) (co eo : SubmitOutcome)
    (hpos : st.current_position = some (pyLower sig)) :
    (ct_tick st (some sig) p1 p2 co eo).2 = []
    ∧ (ct_tick st (some sig) p1 p2 co eo).1.position_open = st.position_open
    ∧ (ct_tick st (some sig) p1 p2 co eo).1.position_direction
        = st.position_direction
    ∧ (ct_tick st (some sig) p1 p2 co eo).1.position_size = st.position_size
    ∧ (ct_tick st (some sig) p1 p2 co eo).1.entry_order_data
        = st.entry_order_data
    ∧ (ct_tick st (some sig) p1 p2 co eo).1.current_position
        = st.current_position := by
  rw [ct_tick]
  by_cases hsig : st.current_signal = some sig
  · rw [if_pos hsig]
    exact ⟨rfl, rfl, rfl, rfl, rfl, rfl⟩
  · rw [if_neg hsig, if_pos hpos]
    exact ⟨rfl, rfl, rfl, rfl, rfl, rfl⟩

/-- Witness for C8: a held long position and a repeated `"LONG"` signal
(with a fresh `current_signal`, so the inner direction guard is exercised). -/
theorem claim8_witness :
    (ct_tick { ctOpenLong with current_signal := none } (some "LONG")
        (some 100) (some 100) .httpError .httpError).2 = []
    ∧ (ct_tick { ctOpenLong with current_signal := none } (some "LONG")
        (some 100) (some 100) .httpError .httpError).1.position_open
        = ({ ctOpenLong with current_signal := none } : CTState).position_open
    ∧ (ct_tick { ctOpenLong with current_signal := none } (some "LONG")
        (some 100) (some 100) .httpError .httpError).1.position_direction
        = ({ ctOpenLong with current_signal := none } : CTState).position_direction
    ∧ (ct_tick { ctOpenLong with current_signal := none } (some "LONG")
        (some 100) (some 100) .httpError .httpError).1.position_size
        = ({ ctOpenLong with current_signal := none } : CTState).position_size
    ∧ (ct_tick { ctOpenLong with current_signal := none } (some "LONG")
        (some 100) (some 100) .httpError .httpError).1.entry_order_data
        = ({ ctOpenLong with current_signal := none } : CTState).entry_order_data
    ∧ (ct_tick { ctOpenLong with current_signal := none } (some "LONG")
        (some 100) (some 100) .httpError .httpError).1.current_position
        = ({ ctOpenLong with current_signal := none } : CTState).current_position :=
  claim8_idempotent_signal { ctOpenLong with current_signal := none } "LONG"
    (some 100) (some 100) .httpError .httpError (by decide)

/-- Claim C9: a flip from a held position (open, with entry data, direction
and a non-zero stored size) whose close comes back `filled` produces exactly
the trace close-submission, 10-second settlement sleep, entry-submission:
the close is a reduce-only order on the opposite side for the stored size,
submitted first, and the entry (a non-reduce-only order for the new
direction) is submitted only after the close confirmation and the fixed
delay.  Together with C5's theorem (no fill ⟹ no entry at all), the entry
is submitted only after a confirmed filled close. -/
theorem claim9_flip_close_then_delay_then_entry (st : CTState) (nd : String)
    (dir : String) (sz : ℚ) (p1 p2 : ℚ) (co eo : SubmitOutcome)
    (hopen : st.position_open = true)
    (hdata : st.entry_order_data.isSome = true)
    (hdir : st.position_direction = some dir)
    (hsz : st.position_size = some sz) (hsznz : ¬ sz = 0)
    (hfill : hasFill co) :
    ∃ creq ereq : OrderReq,
      (ct_flip_position st nd (some p1) (some p2) co eo).2.2
        = [.submit creq, .sleep 10, .submit ereq]
      ∧ creq.r = true
      ∧ creq.b = !(dir == "long")
      ∧ creq.s = round_float_ct sz 2
      ∧ ereq.r = false
      ∧ ereq.b = decide (pyLower nd = "long") := by
  cases co with
  | httpError => exact absurd hfill (by simp [hasFill])
  | malformed => exact absurd hfill (by simp [hasFill])
  | ok statuses =>
    have hff : ∃ f, firstFilled statuses = some f := by
      have : (firstFilled statuses).isSome = true := hfill
      exact Option.isSome_iff_exists.mp this
    obtain ⟨f, hf⟩ := hff
    have hclose : ct_close_position st (some p2) (.ok statuses)
        = ({ current_position := none, position_open := false,
             entry_order_data := none, position_size := none,
             position_direction := none, current_signal := st.current_signal },
           true,
           [.submit { a := 5, b := !(dir == "long"),
                      p := round_float_ct
                        (if !(dir == "long") then pyround2 (p2 * (101 / 100))
                         else pyround2 (p2 * (99 / 100))) 2,
                      s := round_float_ct sz 2, r := true,
                      t := .limit .ioc }]) := by
      rw [ct_close_position, if_neg (by simp [hopen]), hdir]
      dsimp only
      rw [hsz]
      dsimp only
      rw [if_neg hsznz, hf]
    have henter : ∀ stx : CTState,
        (ct_enter_position stx nd p1 eo).2.2
          = [.submit { a := 5, b := decide (pyLower nd = "long"),
                       p := round_float_ct
                         (if pyLower nd = "long" then pyround2 (p1 * (101 / 100))
                          else pyround2 (p1 * (99 / 100))) 2,
                       s := round_float_ct
                         (pyMax (1 / 100) (pyround2 (4000 / p1))) 2,
                       r := false, t := .limit .ioc }] := by
      intro stx
      cases eo with
      | httpError => rfl
      | malformed => rfl
      | ok sts =>
        show ((match firstFilled sts with
          | some f =>
            ({ stx with entry_order_data := some f
                        position_size := some f.totalSz
                        position_direction := some (pyLower nd)
                        position_open := true
                        current_position := some (pyLower nd) },
             true,
             [Ev.submit { a := 5, b := decide (pyLower nd = "long"),
                          p := round_float_ct
                            (if pyLower nd = "long" then pyround2 (p1 * (101 / 100))
                             else pyround2 (p1 * (99 / 100))) 2,
                          s := round_float_ct
                            (pyMax (1 / 100) (pyround2 (4000 / p1))) 2,
                          r := false, t := .limit .ioc }])
          | none =>
            (stx, false,
             [Ev.submit { a := 5, b := decide (pyLower nd = "long"),
                          p := round_float_ct
                            (if pyLower nd = "long" then pyround2 (p1 * (101 / 100))
                             else pyround2 (p1 * (99 / 100))) 2,
                          s := round_float_ct
                            (pyMax (1 / 100) (pyround2 (4000 / p1))) 2,
                          r := false, t := .limit .ioc }])
          : CTState × Bool × List Ev).2.2 = _)
        cases firstFilled sts
        · rfl
        · rfl
    have hflip : (ct_flip_position st nd (some p1) (some p2) (.ok statuses) eo).2.2
        = (ct_close_position st (some p2) (.ok statuses)).2.2 ++ [.sleep 10]
          ++ (ct_enter_position
                (ct_close_position st (some p2) (.ok statuses)).1 nd p1 eo).2.2 := by
      simp only [ct_flip_position, hopen, hdata, Bool.and_self, if_true, hclose]
      rw [if_neg (show ¬ (true = false) by simp)]
      by_cases he : (ct_enter_position
          ({ current_position := none, position_open := false,
             entry_order_data := none, position_size := none,
             position_direction := none, current_signal := st.current_signal }
            : CTState) nd p1 eo).2.1 = true
      · rw [if_pos he]
      · rw [if_neg he]
    have hevents : (ct_flip_position st nd (some p1) (some p2) (.ok statuses) eo).2.2
        = [.submit { a := 5, b := !(dir == "long"),
                     p := round_float_ct
                       (if !(dir == "long") then pyround2 (p2 * (101 / 100))
                        else pyround2 (p2 * (99 / 100))) 2,
                     s := round_float_ct sz 2, r := true, t := .limit .ioc },
           .sleep 10,
           .submit { a := 5, b := decide (pyLower nd = "long"),
                     p := round_float_ct
                       (if pyLower nd = "long" then pyround2 (p1 * (101 / 100))
                        else pyround2 (p1 * (99 / 100))) 2,
                     s := round_float_ct
                       (pyMax (1 / 100) (pyround2 (4000 / p1))) 2,
                     r := false, t := .limit .ioc }] := by
      rw [hflip, hclose, henter]
      rfl
    exact ⟨_, _, hevents, rfl, rfl, rfl, rfl, rfl⟩

/-- Lemma: `round8` is the identity on inputs exactly representable at 8 decimals. -/
theorem round8_exact (x : ℚ) (k : ℤ) (hk : x * 10 ^ 8 = (k : ℚ)) :
    round8 x = x := by
  rw [round8, hk, roundTE_intCast, div_eq_iff (by norm_num : ((10 : ℚ)) ^ 8 ≠ 0)]
  exact hk.symm

/-- The strict `round_float` is lossless on inputs exactly representable at
8 decimals. -/
theorem round_float_exact (x : ℚ) (k : ℤ) (hk : x * 10 ^ 8 = (k : ℚ)) :
    round_float x = .ok x := by
  have h8 := round8_exact x k hk
  rw [round_float, h8, sub_self, abs_zero, if_neg (by norm_num)]

/-- Lemma: `rf?` succeeds (with the input itself) on inputs exactly representable
at 8 decimals. -/
theorem rf?_exact (x : ℚ) (k : ℤ) (hk : x * 10 ^ 8 = (k : ℚ)) :
    rf? x = some x := by
  rw [rf?, round_float_exact x k hk]
  rfl

/-- Lemma: `pyround2` evaluated via an integer value of `x * 100`. -/
theorem pyround2_int (x : ℚ) (k : ℤ) (h : x * 100 = (k : ℚ)) :
    pyround2 x = (k : ℚ) / 100 := by
  rw [pyround2, h, roundTE_intCast]

/-- Snapshot used for the C6 scenario: a 4:1 bullish imbalance at price
level 100. -/
def c6Snap : Snapshot := { imbalance := 4, best_bid := 100, best_ask := 100 }

/-- The grouped orders the hunter builds for a long entry on `c6Snap`:
entry at 100.10 for 4.5 SOL, stop-loss trigger 99.90 (execution 100.90),
take-profit trigger 100.25. -/
def c6Orders : List OrderReq :=
  [{ a := 5, b := true, p := 1001 / 10, s := 9 / 2, r := false,
     t := .limit .ioc },
   { a := 5, b := false, p := 1009 / 10, s := 9 / 2, r := true,
     t := .trigger true (999 / 10) "sl" },
   { a := 5, b := false, p := 401 / 4, s := 9 / 2, r := true,
     t := .trigger true (401 / 4) "tp" }]

/-- Concrete evaluation of the hunter's order construction on `c6Snap`. -/
theorem c6_orders_eval : obh_orders "long" c6Snap = some c6Orders := by
  rw [obh_orders]
  rw [show obh_entry_price "long" c6Snap = 100 from rfl]
  simp only [c6Snap, eq_self_iff_true, if_true]
  rw [show |(4 : ℚ) - 1| = 3 from by norm_num]
  rw [show pyMin (3 / 2) (167 / 100) = 3 / 2 from by
        rw [pyMin, if_pos (by norm_num : (3 / 2 : ℚ) ≤ 167 / 100)]]
  rw [show pyMin (300 * (3 / 2)) 500 = 450 from by
        rw [pyMin, if_pos (by norm_num : (300 * (3 / 2) : ℚ) ≤ 500)]
        norm_num]
  rw [show pyround2 (100 * (1 - 10 / 10000)) = 999 / 10 from by
        rw [pyround2_int _ 9990 (by norm_num)]
        norm_num]
  rw [show pyround2 (100 * (1 + 25 / 10000)) = 401 / 4 from by
        rw [pyround2_int _ 10025 (by norm_num)]
        norm_num]
  rw [show pyround2 (450 / 100) = 9 / 2 from by
        rw [pyround2_int _ 450 (by norm_num)]
        norm_num]
  rw [show rf? (100 + 1 / 10) = some (1001 / 10) from by
        rw [show (100 + 1 / 10 : ℚ) = 1001 / 10 from by norm_num,
            rf?_exact _ 10010000000 (by norm_num)]]
  rw [show rf? (9 / 2) = some (9 / 2) from
        rf?_exact _ 450000000 (by norm_num)]
  rw [show rf? (999 / 10 + 1) = some (1009 / 10) from by
        rw [show (999 / 10 + 1 : ℚ) = 1009 / 10 from by norm_num,
            rf?_exact _ 10090000000 (by norm_num)]]
  rw [show rf? (999 / 10) = some (999 / 10) from
        rf?_exact _ 9990000000 (by norm_num)]
  rw [show rf? (401 / 4) = some (401 / 4) from
        rf?_exact _ 10025000000 (by norm_num)]
  rfl

/-- Counterexample to claim C6 as stated: the hunter's `enter_position`
produces exactly the same state and events for the mixed grouped outcome
`{entry: filled, stopLoss: error, takeProfit: resting}` as for a uniformly
filled one — there is no `PartialFillAmbiguity` classification and no flag
distinguishing unconfirmed protective orders; the position is simply
recorded open (here with the confirmed entry size 3). -/
theorem claim6_counterexample :
    obh_enter_position obhCleared "long" c6Snap 0
        (.ok [.filled ⟨1, 3, 100⟩, .error "x", .resting 2])
      = obh_enter_position obhCleared "long" c6Snap 0
        (.ok [.filled ⟨1, 3, 100⟩, .filled ⟨2, 3, 100⟩, .filled ⟨3, 3, 100⟩])
    ∧ (obh_enter_position obhCleared "long" c6Snap 0
        (.ok [.filled ⟨1, 3, 100⟩, .error "x", .resting 2])).1.position_open
        = true
    ∧ (obh_enter_position obhCleared "long" c6Snap 0
        (.ok [.filled ⟨1, 3, 100⟩, .error "x", .resting 2])).1.position_size
        = some 3 := by
  refine ⟨?_, ?_, ?_⟩ <;>
    (delta obh_enter_position
     rw [c6_orders_eval]
     rfl)

/-- Claim C6, amended: only `statuses[0]` of a grouped submission's response
is ever inspected.  The result is identical for any two `ok` responses with
the same first status (so the stop-loss/take-profit legs cannot influence
the outcome and no partial-fill flag exists); a `filled` first status
records the position open with the confirmed entry size and direction; and
the scalping bot's `place_grouped_order` likewise returns the first
status's `resting` oid (or a bare `True`) with the remaining legs ignored. -/
theorem claim6_first_status_only (st : OBHState) (d : String)
    (snap : Snapshot) (now : ℚ) (f : FilledData) (x : OrderStatus)
    (r1 r2 : List OrderStatus) :
    obh_enter_position st d snap now (.ok (x :: r1))
      = obh_enter_position st d snap now (.ok (x :: r2))
    ∧ (∀ os, obh_orders d snap = some os →
        obh_enter_position st d snap now (.ok (.filled f :: r1))
          = ({ st with
                entry_order_data := some (.filled f)
                position_size := some f.totalSz
                position_direction := some d
                position_open := true
                entry_time := some now
                entry_price := some (obh_entry_price d snap) },
             [.submitGroup os]))
    ∧ usb_grouped_result (.ok (x :: r1)) = usb_grouped_result (.ok (x :: r2))
    ∧ (∀ n, usb_grouped_result (.ok (.resting n :: r1)) = .oid n) := by
  refine ⟨?_, ?_, ?_, fun n => rfl⟩
  · delta obh_enter_position
    cases obh_orders d snap with
    | none => rfl
    | some os => cases x <;> rfl
  · intro os hos
    delta obh_enter_position
    rw [hos]
    rfl
  · cases x <;> rfl

/-- Witness for C6's amended theorem at the concrete mixed response of the
counterexample. -/
theorem claim6_witness :
    obh_enter_position obhCleared "long" c6Snap 0
        (.ok [.filled ⟨1, 3, 100⟩, .error "x", .resting 2])
      = ({ obhCleared with
            entry_order_data := some (.filled ⟨1, 3, 100⟩)
            position_size := some (3 : ℚ)
            position_direction := some "long"
            position_open := true
            entry_time := some 0
            entry_price := some (obh_entry_price "long" c6Snap) },
         [.submitGroup c6Orders]) :=
  (claim6_first_status_only obhCleared "long" c6Snap 0 ⟨1, 3, 100⟩
      (.filled ⟨1, 3, 100⟩) [.error "x", .resting 2] []).2.1
    c6Orders c6_orders_eval

/-- Counterexample to claim C7 as stated: two submissions at distinct clock
readings 1.0001s and 1.0003s produce the same nonce 1000 — a reused nonce,
since nothing in the bots deduplicates or bumps nonces within one
millisecond. -/
theorem claim7_counterexample :
    (10001 / 10000 : ℚ) ≠ 10003 / 10000
    ∧ mkNonce (10001 / 10000) = 1000
    ∧ mkNonce (10003 / 10000) = 1000
    ∧ (place_order_payload keccak0 signer0 (MPVal.str "x")
        (10001 / 10000)).nonce
      = (place_order_payload keccak0 signer0 (MPVal.str "x")
        (10003 / 10000)).nonce := by
  have h1 : mkNonce (10001 / 10000) = 1000 := by
    rw [mkNonce, show (1000 : ℚ) * (10001 / 10000) = 10001 / 10 from by norm_num]
    rw [show ⌊(10001 / 10 : ℚ)⌋ = 1000 from by
          rw [Int.floor_eq_iff]
          norm_num]
    rfl
  have h2 : mkNonce (10003 / 10000) = 1000 := by
    rw [mkNonce, show (1000 : ℚ) * (10003 / 10000) = 10003 / 10 from by norm_num]
    rw [show ⌊(10003 / 10 : ℚ)⌋ = 1000 from by
          rw [Int.floor_eq_iff]
          norm_num]
    rfl
  refine ⟨by norm_num, h1, h2, ?_⟩
  show mkNonce (10001 / 10000) = mkNonce (10003 / 10000)
  rw [h1, h2]

/-- Claim C7, amended: every submission's nonce is the wall clock in
milliseconds (`int(time.time() * 1000)`); across calls the nonces are
monotonically non-decreasing whenever the clock is, but two calls falling
in the same millisecond window produce the same nonce — uniqueness holds
only between calls in distinct milliseconds, not unconditionally. -/
theorem claim7_nonce_amended (keccak : List Nat → List Nat)
    (signer : TypedData → Signature) (a : MPVal) (t1 t2 : ℚ) (m : ℕ)
    (h12 : t1 ≤ t2) :
    (place_order_payload keccak signer a t1).nonce = mkNonce t1
    ∧ mkNonce t1 ≤ mkNonce t2
    ∧ ((m : ℚ) / 1000 ≤ t1 → t2 < ((m : ℚ) + 1) / 1000 →
        mkNonce t1 = mkNonce t2) := by
  refine ⟨rfl, ?_, ?_⟩
  · apply Int.toNat_le_toNat
    apply Int.floor_le_floor
    linarith
  · intro hm1 hm2
    have e1 : ⌊(1000 : ℚ) * t1⌋ = (m : ℤ) := by
      rw [Int.floor_eq_iff]
      constructor
      · push_cast
        linarith
      · push_cast
        linarith
    have e2 : ⌊(1000 : ℚ) * t2⌋ = (m : ℤ) := by
      rw [Int.floor_eq_iff]
      constructor
      · push_cast
        linarith
      · push_cast
        linarith
    rw [mkNonce, mkNonce, e1, e2]

/-- Witness for C7's amended theorem at the same-millisecond pair of clock
readings used in the counterexample. -/
theorem claim7_witness :
    (place_order_payload keccak0 signer0 (MPVal.str "x")
        (10001 / 10000)).nonce = mkNonce (10001 / 10000)
    ∧ mkNonce (10001 / 10000) ≤ mkNonce (10003 / 10000)
    ∧ mkNonce (10001 / 10000 : ℚ) = mkNonce (10003 / 10000) :=
  have h := claim7_nonce_amended keccak0 signer0 (MPVal.str "x")
    (10001 / 10000) (10003 / 10000) 1000 (by norm_num)
  ⟨h.1, h.2.1, h.2.2 (by norm_num) (by norm_num)⟩

/-- Witness for C9 at the open-long state with a filled close response. -/
theorem claim9_witness :
    ∃ creq ereq : OrderReq,
      (ct_flip_position ctOpenLong "short" (some 100) (some 100)
          (.ok [.filled ⟨2, 3, 100⟩]) .httpError).2.2
        = [.submit creq, .sleep 10, .submit ereq]
      ∧ creq.r = true
      ∧ creq.b = !(("long" : String) == "long")
      ∧ creq.s = round_float_ct 3 2
      ∧ ereq.r = false
      ∧ ereq.b = decide (pyLower "short" = "long") :=
  claim9_flip_close_then_delay_then_entry ctOpenLong "short" "long" 3 100 100
    (.ok [.filled ⟨2, 3, 100⟩]) .httpError rfl rfl rfl rfl (by norm_num) rfl
